import Mathlib

/-!
Verification of the Fireside Betrayal session coordinator.

This file gives a shallow embedding, in Lean 4, of the deterministic core of
the backend: the game data model (`models/game.py`), the persistence-level
helpers it relies on (`services/firestore_service.py`), the game-rule engine
(`agents/game_master.py`), and the WebSocket hub / action dispatcher
(`routers/ws_router.py`).  Python dictionaries are modelled as association
lists with last-write-wins lookup, the Firestore document store as an
explicit `Store` record threaded through every operation, `random.choice`
as an extra natural-number parameter indexing into the candidate list, and
`async` side effects (sent WebSocket messages, broadcasts) as an explicit
trace of output messages.  Raised exceptions are modelled with `Except`.
-/

namespace Fireside

/-- `Phase` enum from `models/game.py`. -/
inductive Phase
  | setup
  | night
  | day_discussion
  | day_vote
  | elimination
  | game_over
deriving DecidableEq, Repr

/-- `Role` enum from `models/game.py`. -/
inductive Role
  | villager
  | seer
  | healer
  | hunter
  | drunk
  | shapeshifter
  | bodyguard
  | tanner
deriving DecidableEq, Repr

/-- `GameStatus` enum from `models/game.py`. -/
inductive GameStatus
  | lobby
  | in_progress
  | finished
deriving DecidableEq, Repr

/-- `PlayerState` from `models/game.py`, restricted to the fields the game
logic reads or writes (identity, character, role, liveness, pending vote and
night action).  Cosmetic fields (display name, intro, timestamps, session
handle) are omitted as no claim concerns them. -/
structure PlayerState where
  id : String
  name : String
  character_name : String
  role : Option Role
  alive : Bool
  connected : Bool
  ready : Bool
  voted_for : Option String
  night_action : Option String
deriving DecidableEq, Repr

/-- `AICharacter` from `models/game.py` (fields used by the game logic). -/
structure AICharacter where
  name : String
  role : Role
  alive : Bool
  voted_for : Option String
  is_traitor : Bool
deriving DecidableEq, Repr

/-- The `data` dict of a `GameEvent`, modelled as named optional fields: the
code only ever writes these fixed keys (`game_master.py`). -/
structure EventData where
  blocked : Option Bool := none
  bodyguard_sacrifice : Option Bool := none
  was_traitor : Option Bool := none
  role : Option String := none
  by_vote : Option Bool := none
  result : Option Bool := none
  is_drunk : Option Bool := none
deriving DecidableEq, Repr

/-- `GameEvent` from `models/game.py` (fields used by the game logic; the
`id`, `narration` and `timestamp` fields are omitted — events are kept in
log order, which is what `order_by("timestamp")` returns). -/
structure GameEvent where
  type : String
  round : Nat
  phase : Phase
  actor : Option String
  target : Option String
  data : EventData
  visible_in_game : Bool
deriving DecidableEq, Repr

/-- `GameState` from `models/game.py` (fields used by the game logic). -/
structure GameState where
  status : GameStatus
  phase : Phase
  round : Nat
  character_cast : List String
  ai_character : Option AICharacter
deriving DecidableEq, Repr

/-- One game's view of the Firestore document store: the game document, its
`players` subcollection (in stream order) and its `events` subcollection
(in timestamp order).  `FirestoreService` in `services/firestore_service.py`
reads and writes exactly this state. -/
structure Store where
  game : GameState
  players : List PlayerState
  events : List GameEvent
deriving DecidableEq, Repr

-- ── Python dict / lookup helpers ─────────────────────────────────────────────

/-- Last-write-wins lookup of a player by id, mirroring Python dict
construction `{p.id: p for p in players}` (later entries overwrite). -/
def id_lookup (players : List PlayerState) (pid : String) : Option PlayerState :=
  players.foldl (fun acc p => if p.id = pid then some p else acc) none

/-- Last-write-wins lookup of a player by character name, mirroring
`{p.character_name: p for p in players}`. -/
def char_lookup (players : List PlayerState) (c : String) : Option PlayerState :=
  players.foldl (fun acc p => if p.character_name = c then some p else acc) none

/-- `FirestoreService.get_alive_players`: all players with `alive`. -/
def get_alive_players (players : List PlayerState) : List PlayerState :=
  players.filter (·.alive)

/-- One step of Python's `tally[c] = tally.get(c, 0) + 1` on an insertion
ordered dict represented as an association list. -/
def bump (t : List (String × Nat)) (c : String) : List (String × Nat) :=
  if t.any (fun kv => kv.1 = c) then
    t.map (fun kv => if kv.1 = c then (kv.1, kv.2 + 1) else kv)
  else
    t ++ [(c, 1)]

/-- `FirestoreService.get_vote_tally`: `{character_name: vote_count}` over all
non-null votes, in player stream order. -/
def get_vote_tally (players : List PlayerState) : List (String × Nat) :=
  players.foldl
    (fun t p => match p.voted_for with
      | some c => bump t c
      | none => t)
    []

/-- Number of non-null player votes (`p.voted_for` set). -/
def non_null_votes (players : List PlayerState) : Nat :=
  (players.filter (fun p => p.voted_for.isSome)).length

-- ── tally_votes (game_master.py) ─────────────────────────────────────────────

/-- Result dict of `GameMaster.tally_votes`. -/
structure TallyResult where
  result : String
  eliminated : Option String
  tally : List (String × Nat)
  tied : List String
deriving DecidableEq, Repr

/-- Sum of the counts of a tally dict (`sum(tally.values())`). -/
def tally_sum (t : List (String × Nat)) : Nat :=
  (t.map (fun kv => kv.2)).sum

/-- The tally counted by `GameMaster.tally_votes`: all non-null player votes
plus the AI character's mirrored vote when the AI is alive and has voted. -/
def tally_with_ai (s : Store) : List (String × Nat) :=
  let base := get_vote_tally s.players
  match s.game.ai_character with
  | some ai =>
    if ai.alive then
      match ai.voted_for with
      | some v => bump base v
      | none => base
    else base
  | none => base

/-- `max_votes = max(tally.values())` of `GameMaster.tally_votes`. -/
def max_votes_of (t : List (String × Nat)) : Nat :=
  (t.map (fun kv => kv.2)).foldl Nat.max 0

/-- `leaders = [char for char, count in tally.items() if count == max_votes]`. -/
def leaders_of (t : List (String × Nat)) : List String :=
  (t.filter (fun kv => kv.2 = max_votes_of t)).map (fun kv => kv.1)

/-- The store write of `tally_votes`: clear `ai_character.voted_for` when
the AI vote was counted, so it does not persist into the next round. -/
def tally_clear_ai_vote (s : Store) : Store :=
  match s.game.ai_character with
  | some ai =>
    if ai.alive ∧ ai.voted_for.isSome then
      { s with game := { s.game with
          ai_character := some { ai with voted_for := none } } }
    else s
  | none => s

/-- `GameMaster.tally_votes`.  Counts all non-null player votes, mirrors in
the AI character's vote when the AI is alive and has voted (clearing that
vote in the store afterwards), and picks the eliminated character: the unique
leader, or — on a tie — `random.choice(leaders)`, modelled by the extra
index draw `pick` into the leader list. -/
def tally_votes (s : Store) (pick : Nat) : TallyResult × Store :=
  let withAI := tally_with_ai s
  let s1 := tally_clear_ai_vote s
  if withAI.isEmpty then
    ({ result := "no_votes", eliminated := none, tally := [], tied := [] }, s1)
  else
    let leaders := leaders_of withAI
    if leaders.length = 1 then
      ({ result := "eliminated", eliminated := leaders.head?, tally := withAI,
         tied := [] }, s1)
    else
      ({ result := "tie", eliminated := leaders.get? (pick % leaders.length),
         tally := withAI, tied := leaders }, s1)

-- ── advance_phase (game_master.py) ───────────────────────────────────────────

/-- `GameMaster.PHASE_CYCLE`. -/
def PHASE_CYCLE : List Phase :=
  [Phase.night, Phase.day_discussion, Phase.day_vote, Phase.elimination]

/-- Python `list.index`, returning `none` where Python raises `ValueError`. -/
def list_index (l : List Phase) (x : Phase) : Option Nat :=
  match l with
  | [] => none
  | y :: ys => if y = x then some 0 else (list_index ys x).map (· + 1)

/-- The two distinct `ValueError` raise sites of `GameMaster.advance_phase`:
a missing game document, and a current phase outside `PHASE_CYCLE`.  The
spec's error taxonomy names these `NotFoundError` and `InvalidStateError`. -/
inductive AdvanceError
  | notFound
  | invalidState (current : Phase)
deriving DecidableEq, Repr

/-- `FirestoreService.set_phase`: writes `phase`, and `round` only when one
is supplied. -/
def set_phase (g : GameState) (phase : Phase) (round : Option Nat) : GameState :=
  { g with phase := phase, round := round.getD g.round }

/-- `GameMaster.advance_phase`.  From `SETUP` moves to `NIGHT` with round 1;
otherwise steps along `PHASE_CYCLE`, incrementing the round exactly when the
destination is `NIGHT` (the round is only written in that case — `set_phase`
is called with `None` otherwise). -/
def advance_phase (game? : Option GameState) : Except AdvanceError (Phase × GameState) :=
  match game? with
  | none => .error .notFound
  | some game =>
    if game.phase = Phase.setup then
      .ok (Phase.night, set_phase game Phase.night (some 1))
    else
      match list_index PHASE_CYCLE game.phase with
      | none => .error (.invalidState game.phase)
      | some idx =>
        let next_idx := (idx + 1) % PHASE_CYCLE.length
        let next_phase := PHASE_CYCLE.getD next_idx Phase.night
        let new_round := if next_phase = Phase.night then game.round + 1 else game.round
        .ok (next_phase,
             set_phase game next_phase
               (if next_phase = Phase.night then some new_round else none))

-- ── eliminate_character (game_master.py) ─────────────────────────────────────

/-- Result dict of `GameMaster.eliminate_character`. -/
structure ElimResult where
  was_traitor : Bool
  role : Option String
  needs_hunter_revenge : Bool
  hunter_character : Option String
  is_loyal_ai : Bool
deriving DecidableEq, Repr

/-- `.value` of a `Role` (the Python str enum payload). -/
def Role.value : Role → String
  | .villager => "villager"
  | .seer => "seer"
  | .healer => "healer"
  | .hunter => "hunter"
  | .drunk => "drunk"
  | .shapeshifter => "shapeshifter"
  | .bodyguard => "bodyguard"
  | .tanner => "tanner"

/-- `FirestoreService.eliminate_by_character`: marks the first player whose
character name matches as dead; failing that, the AI character. -/
def eliminate_by_character (s : Store) (character_name : String) : Store :=
  if (s.players.find? (fun p => p.character_name = character_name)).isSome then
    { s with players :=
        markFirst s.players }
  else
    match s.game.ai_character with
    | some ai =>
      if ai.name = character_name then
        { s with game := { s.game with ai_character := some { ai with alive := false } } }
      else s
    | none => s
where
  /-- Set `alive := False` on the first player with the given name. -/
  markFirst : List PlayerState → List PlayerState
    | [] => []
    | p :: ps =>
      if p.character_name = character_name then { p with alive := false } :: ps
      else p :: markFirst ps

/-- `FirestoreService.clear_votes`: null out every pending vote. -/
def clear_votes (s : Store) : Store :=
  { s with players := s.players.map (fun p => { p with voted_for := none }) }

/-- `GameMaster.eliminate_character`.  Locates the character among the AI or
the players (first match, `break`), marks it dead, clears all votes and logs
a visible `elimination` event — but only when the character was found; an
unknown name only logs a warning. -/
def eliminate_character (s : Store) (character_name : String) (by_vote : Bool) :
    ElimResult × Store :=
  let is_ai_character :=
    match s.game.ai_character with
    | some ai => ai.name = character_name
    | none => false
  let was_traitor := is_ai_character &&
    (match s.game.ai_character with
     | some ai => ai.is_traitor
     | none => true)
  let is_loyal_ai := is_ai_character && ! was_traitor
  let found_player := s.players.find? (fun p => p.character_name = character_name)
  let found := is_ai_character || found_player.isSome
  let eliminated_role : Option String :=
    if is_ai_character then
      if was_traitor then some "shapeshifter"
      else some ((s.game.ai_character.map (fun ai => ai.role.value)).getD "villager")
    else
      match found_player with
      | some p => some ((p.role.map Role.value).getD "villager")
      | none => none
  let needs_hunter_revenge :=
    ! is_ai_character &&
      (match found_player with
       | some p => decide (p.role = some Role.hunter)
       | none => false)
  let hunter_character : Option String :=
    if needs_hunter_revenge then some character_name else none
  let s1 :=
    if is_ai_character then
      match s.game.ai_character with
      | some ai =>
        { s with game := { s.game with ai_character := some { ai with alive := false } } }
      | none => s
    else if found_player.isSome then
      eliminate_by_character s character_name
    else s
  let s2 :=
    if found then
      let cleared := clear_votes s1
      { cleared with events := cleared.events ++
          [{ type := "elimination"
             round := cleared.game.round
             phase := Phase.elimination
             actor := none
             target := some character_name
             data := { was_traitor := some was_traitor
                       role := eliminated_role
                       by_vote := some by_vote }
             visible_in_game := true }] }
    else s1
  ({ was_traitor := was_traitor
     role := eliminated_role
     needs_hunter_revenge := needs_hunter_revenge
     hunter_character := hunter_character
     is_loyal_ai := is_loyal_ai }, s2)

-- ── check_win_condition (game_master.py) ─────────────────────────────────────

/-- `GameMaster.MINIMUM_ROUNDS` (minimum rounds before a shapeshifter win,
keyed by total character count). -/
def MINIMUM_ROUNDS : Nat → Option Nat
  | 3 => some 3
  | 4 => some 3
  | 5 => some 3
  | 6 => some 4
  | 7 => some 4
  | 8 => some 5
  | _ => none

/-- Win result of `GameMaster.check_win_condition`. -/
structure WinResult where
  winner : String
  reason : String
deriving DecidableEq, Repr

/-- The villager win result of `check_win_condition`. -/
def villagers_win : WinResult :=
  { winner := "villagers"
    reason := "The Shapeshifter has been identified and cast out of Thornwood." }

/-- The shapeshifter win result of `check_win_condition`. -/
def shapeshifter_win : WinResult :=
  { winner := "shapeshifter"
    reason := "The Shapeshifter has eliminated enough villagers to seize Thornwood. The village falls into darkness." }

/-- `GameMaster.check_win_condition`.  Villagers win the moment the hostile
(traitor) AI is dead, with no round floor; a dead *loyal* AI yields no winner.
The shapeshifter wins only when at most one human is alive **and** the round
has reached `MINIMUM_ROUNDS` for the roster size (default 3); below that
floor the game continues.  Pure: reads the snapshot, writes nothing. -/
def check_win_condition (s : Store) : Option WinResult :=
  let alive_players := get_alive_players s.players
  let ai_dead_or_missing :=
    match s.game.ai_character with
    | none => true
    | some ai => ! ai.alive
  if ai_dead_or_missing then
    -- `getattr(ai_char, "is_traitor", True)` is `True` when `ai_char` is None
    if ! (match s.game.ai_character with
          | some ai => ai.is_traitor
          | none => true) then
      none
    else
      some villagers_win
  else
    let human_alive := alive_players.length
    if human_alive ≤ 1 then
      let total_players := s.game.character_cast.length
      let min_rounds := (MINIMUM_ROUNDS total_players).getD 3
      if s.game.round < min_rounds then
        none
      else
        some shapeshifter_win
    else
      none

-- ── resolve_night (game_master.py) ───────────────────────────────────────────

/-- Python string truthiness for nullable strings: `None` and `""` are falsy. -/
def truthy : Option String → Bool
  | some t => t ≠ ""
  | none => false

/-- `FirestoreService.get_night_actions` membership/lookup: the dict
`{p.id: p.night_action for p in players if p.night_action and p.role}`,
over *all* players, last write wins. -/
def night_actions_lookup (players : List PlayerState) (pid : String) : Option String :=
  players.foldl
    (fun acc p =>
      if p.id = pid ∧ truthy p.night_action ∧ p.role.isSome then p.night_action else acc)
    none

/-- The `role_map` built at the top of `resolve_night`:
`{p.role.value: p.id}` over alive players, last write wins. -/
def role_map_find (alive : List PlayerState) (r : Role) : Option String :=
  alive.foldl (fun acc p => if p.role = some r then some p.id else acc) none

/-- Step 1 of `resolve_night`: the shapeshifter's kill target.  Only a live
traitor AI kills.  The target comes from the first `night_target` event of
the current round authored by the AI, when that target is a live character;
otherwise `random.choice` over the alive players (modelled by the index draw
`fp`), or no target at all when nobody is alive. -/
def shapeshifter_target_of (s : Store) (fp : Nat) : Option String :=
  match s.game.ai_character with
  | none => none
  | some ai =>
    if ai.alive && ai.is_traitor then
      let alive := get_alive_players s.players
      let evs := s.events.filter (fun ev => decide (ev.round = s.game.round))
      let fromEvent :=
        match evs.find? (fun ev =>
            decide (ev.type = "night_target") && decide (ev.actor = some ai.name)) with
        | some ev =>
          match ev.target with
          | some t => if (char_lookup alive t).isSome then some t else none
          | none => none
        | none => none
      if truthy fromEvent then fromEvent
      else
        match alive with
        | [] => none
        | p :: ps => some (((p :: ps).getD (fp % (p :: ps).length) p).character_name)
    else none

/-- Step 2 of `resolve_night`: the healer's protected target
(`night_actions[healer_id]` when the healer submitted one). -/
def protected_of (s : Store) : Option String :=
  match role_map_find (get_alive_players s.players) Role.healer with
  | some hid => if hid ≠ "" then night_actions_lookup s.players hid else none
  | none => none

/-- Step 2b of `resolve_night`: the bodyguard's protected target. -/
def bodyguard_target_of (s : Store) : Option String :=
  match role_map_find (get_alive_players s.players) Role.bodyguard with
  | some bgid => if bgid ≠ "" then night_actions_lookup s.players bgid else none
  | none => none

/-- The seer result dict of `resolve_night`. -/
structure SeerResult where
  character : String
  is_shapeshifter : Bool
  investigating_player_id : String
deriving DecidableEq, Repr

/-- Result dict of `GameMaster.resolve_night`.  The Python key `protected`
is a Lean keyword, hence `protected_char`. -/
structure NightResult where
  killed : Option String
  protected_char : Option String
  seer_result : Option SeerResult
  hunter_triggered : Bool
  bodyguard_sacrifice : Bool
deriving DecidableEq, Repr

/-- `FirestoreService.clear_night_actions`: null out every (truthy) pending
night action. -/
def clear_night_actions (s : Store) : Store :=
  { s with players := s.players.map (fun p =>
      if truthy p.night_action then { p with night_action := none } else p) }

/-- Step 3 of `resolve_night` (healer → bodyguard → direct hit), returning
`(killed, hunter_triggered, bodyguard_sacrifice)`. -/
def night_kill_of (s : Store) (fp : Nat) : Option String × Bool × Bool :=
  let alive := get_alive_players s.players
  let shapeshifter_target := shapeshifter_target_of s fp
  let protected_target := protected_of s
  let bodyguard_id := role_map_find alive Role.bodyguard
  let bodyguard_target := bodyguard_target_of s
  if truthy shapeshifter_target then
    if shapeshifter_target = protected_target then
      (none, false, false)
    else if shapeshifter_target = bodyguard_target then
      match bodyguard_id with
      | some bgid =>
        match id_lookup alive bgid with
        | some bg => (some bg.character_name, false, true)
        | none => (none, false, false)
      | none => (none, false, false)
    else
      match char_lookup alive (shapeshifter_target.getD "") with
      | some victim =>
        (shapeshifter_target, decide (victim.role = some Role.hunter), false)
      | none => (shapeshifter_target, false, false)
  else (none, false, false)

/-- `GameMaster.resolve_night`.  Priority order: shapeshifter kill target,
healer protection (cancels the kill on the same target), bodyguard
protection (the bodyguard dies in the target's place, unless the healer
already blocked), then the seer / drunk investigation (the drunk is handed
the negated answer).  All sub-results are logged as hidden events and the
pending night actions are cleared.  The store elimination itself is left to
the caller (`eliminate_character`). -/
def resolve_night (s : Store) (fp : Nat) : NightResult × Store :=
  let alive := get_alive_players s.players
  let ai? := s.game.ai_character
  let shapeshifter_target := shapeshifter_target_of s fp
  let protected_target := protected_of s
  let bodyguard_id := role_map_find alive Role.bodyguard
  -- Step 3: apply kill (healer → bodyguard → direct hit)
  let killRes := night_kill_of s fp
  let killed := killRes.1
  let hunter_triggered := killRes.2.1
  let bodyguard_sacrifice := killRes.2.2
  -- Step 4: seer / drunk investigation
  let seer_id := role_map_find alive Role.seer
  let drunk_id := role_map_find alive Role.drunk
  let investigating : Option (String × String) :=
    match seer_id with
    | some sid =>
      if sid ≠ "" ∧ (night_actions_lookup s.players sid).isSome then
        (night_actions_lookup s.players sid).map (fun t => (sid, t))
      else
        match drunk_id with
        | some did =>
          if did ≠ "" ∧ (night_actions_lookup s.players did).isSome then
            (night_actions_lookup s.players did).map (fun t => (did, t))
          else none
        | none => none
    | none =>
      match drunk_id with
      | some did =>
        if did ≠ "" ∧ (night_actions_lookup s.players did).isSome then
          (night_actions_lookup s.players did).map (fun t => (did, t))
        else none
      | none => none
  let seer_result : Option SeerResult :=
    match investigating with
    | some (iid, t) =>
      if iid ≠ "" ∧ t ≠ "" then
        let target_player := char_lookup alive t
        let is_ai_character :=
          match ai? with
          | some ai => decide (ai.name = t)
          | none => false
        let true_result :=
          if is_ai_character then true
          else
            match target_player with
            | some tp => decide (tp.role = some Role.shapeshifter)
            | none => false
        let reported :=
          if some iid = drunk_id then ! true_result else true_result
        some { character := t, is_shapeshifter := reported,
               investigating_player_id := iid }
      else none
    | none => none
  -- Log all actions as hidden events
  let s1 :=
    if truthy shapeshifter_target then
      { s with events := s.events ++
          [{ type := "night_kill_attempt"
             round := s.game.round
             phase := Phase.night
             actor := some ((ai?.map (fun ai => ai.name)).getD "shapeshifter")
             target := shapeshifter_target
             data := { blocked := some (decide (shapeshifter_target ≠ killed)
                                        && ! bodyguard_sacrifice)
                       bodyguard_sacrifice := some bodyguard_sacrifice }
             visible_in_game := false }] }
    else s
  let s2 :=
    match bodyguard_id with
    | some bgid =>
      if bodyguard_sacrifice ∧ bgid ≠ "" ∧ (id_lookup alive bgid).isSome then
        { s1 with events := s1.events ++
            [{ type := "bodyguard_sacrifice"
               round := s.game.round
               phase := Phase.night
               actor := (id_lookup alive bgid).map (fun p => p.character_name)
               target := shapeshifter_target
               data := {}
               visible_in_game := false }] }
      else s1
    | none => s1
  let s3 :=
    if truthy protected_target then
      { s2 with events := s2.events ++
          [{ type := "night_heal"
             round := s.game.round
             phase := Phase.night
             actor := some
               (match role_map_find alive Role.healer with
                | some hid =>
                  match id_lookup alive hid with
                  | some hp => hp.character_name
                  | none => "healer"
                | none => "healer")
             target := protected_target
             data := {}
             visible_in_game := false }] }
    else s2
  let s4 :=
    match seer_result with
    | some sr =>
      { s3 with events := s3.events ++
          [{ type := "night_investigation"
             round := s.game.round
             phase := Phase.night
             actor := some
               (match id_lookup alive sr.investigating_player_id with
                | some ip => ip.character_name
                | none => "seer")
             target := some sr.character
             data := { result := some sr.is_shapeshifter
                       is_drunk := some (decide (some sr.investigating_player_id = drunk_id)) }
             visible_in_game := false }] }
    | none => s3
  let s5 := clear_night_actions s4
  ({ killed := killed
     protected_char := protected_target
     seer_result := seer_result
     hunter_triggered := hunter_triggered
     bodyguard_sacrifice := bodyguard_sacrifice }, s5)

-- ── ConnectionManager (ws_router.py) ─────────────────────────────────────────

/-- One game's connection map `{player_id: WebSocket}`.  A WebSocket is
abstracted to the one bit the hub observes: whether `send_json` on it
succeeds (`true`) or raises (`false`). -/
def Conns := List (String × Bool)

/-- `ConnectionManager.disconnect` for one game: pop the player's entry. -/
def disconnect (conns : List (String × Bool)) (pid : String) : List (String × Bool) :=
  conns.filter (fun c => decide (c.1 ≠ pid))

/-- Dict lookup `self._games.get(game_id, {}).get(player_id)` on the
connection map. -/
def conns_lookup (conns : List (String × Bool)) (pid : String) : Option Bool :=
  conns.foldl (fun acc c => if c.1 = pid then some c.2 else acc) none

/-- `ConnectionManager.send_to`: look the player up; on a send failure, log a
warning and silently disconnect them (the `try/except` swallows the
exception — the function always returns).  Returns the new connection map
and the list of players the message actually reached. -/
def send_to (conns : List (String × Bool)) (pid : String) :
    List (String × Bool) × List String :=
  match conns_lookup conns pid with
  | some ok => if ok then (conns, [pid]) else (disconnect conns pid, [])
  | none => (conns, [])

/-- Loop body of `ConnectionManager.broadcast`: iterate over a snapshot of
the items, skipping `exclude`; a failed send disconnects that player from
the live map and the loop continues with the rest. -/
def broadcast_go (live : List (String × Bool)) (delivered : List String)
    (todo : List (String × Bool)) (exclude : Option String) :
    List (String × Bool) × List String :=
  match todo with
  | [] => (live, delivered)
  | c :: rest =>
    if some c.1 = exclude then broadcast_go live delivered rest exclude
    else if c.2 then broadcast_go live (delivered ++ [c.1]) rest exclude
    else broadcast_go (disconnect live c.1) delivered rest exclude

/-- `ConnectionManager.broadcast`: best-effort fan-out over
`list(self._games.get(game_id, {}).items())`. -/
def broadcast (conns : List (String × Bool)) (exclude : Option String) :
    List (String × Bool) × List String :=
  broadcast_go conns [] conns exclude

-- ── Dispatcher and resolution flow (ws_router.py) ────────────────────────────

/-- A message the server hands to the hub: a private `send_to` (type plus
error code, `""` when not an error) or a `broadcast` of the given type. -/
inductive OutMsg
  | sendTo (player_id : String) (msg_type : String) (code : String)
  | broadcastMsg (msg_type : String)
  | gameOver (winner : String)
deriving DecidableEq, Repr

/-- The in-process coordinator state for one game: the Firestore view, the
`_resolving_votes` guard membership for this game id, the pending
`_vote_timeout_tasks` entry, and the trace of messages handed to the hub
(in send order).  Trackers that never influence game state (conversation
pacing, hand-raise queue, difficulty adapter, narrator and scene-image
collaborators) are outside the claims and are not modelled. -/
structure SysState where
  store : Store
  resolving : Bool
  vote_timeout_armed : Bool
  sent : List OutMsg
deriving DecidableEq, Repr

/-- Append one outbound message to the trace. -/
def emit (st : SysState) (m : OutMsg) : SysState :=
  { st with sent := st.sent ++ [m] }

/-- `ConnectionManager.broadcast_phase_change`: broadcast the phase change,
then (re)arm the vote timeout task exactly when the new phase is
`DAY_VOTE`. -/
def broadcast_phase_change (st : SysState) (phase : Phase) : SysState :=
  let st1 := emit st (.broadcastMsg "phase_change")
  if phase = Phase.day_vote then { st1 with vote_timeout_armed := true } else st1

/-- `_end_game`: mark the game finished, broadcast `game_over`, and cancel
any pending vote timeout.  (Reveal/timeline payload construction, strategy
logging and narrator teardown touch no claimed state.) -/
def end_game (st : SysState) (winner : String) : SysState :=
  let st1 := { st with store := { st.store with
      game := { st.store.game with status := GameStatus.finished } } }
  let st2 := emit st1 (.gameOver winner)
  { st2 with vote_timeout_armed := false }

/-- Body of `_resolve_vote_and_advance` once the guard is held (everything
inside the `try`); every exit path models the `finally` discard of the
game id from `_resolving_votes`.  The dynamic-difficulty adapter block
mutates only an in-process tracker and is omitted. -/
def resolve_body (st0 : SysState) (pick : Nat) : SysState :=
  let tr := tally_votes st0.store pick
  let tally_result := tr.1
  let st := { st0 with store := tr.2 }
  if tally_result.result = "no_votes" then
    match advance_phase (some st.store.game) with
    | .ok (next_phase, g') =>
      let st := { st with store := { st.store with game := g' } }
      let st := broadcast_phase_change st next_phase
      { st with resolving := false }
    | .error _ => { st with resolving := false }
  else
    match tally_result.eliminated with
    | none => { st with resolving := false }
    | some eliminated =>
      let er := eliminate_character st.store eliminated true
      let elim_result := er.1
      let st := { st with store := er.2 }
      if elim_result.role = some "tanner" then
        let st := emit st (.broadcastMsg "elimination")
        let st := end_game st "tanner"
        { st with resolving := false }
      else if elim_result.is_loyal_ai then
        let st := emit st (.broadcastMsg "elimination")
        let st := end_game st "shapeshifter"
        { st with resolving := false }
      else
        let st := emit st (.broadcastMsg "elimination")
        match check_win_condition st.store with
        | some win =>
          let st := end_game st win.winner
          { st with resolving := false }
        | none =>
          match advance_phase (some st.store.game) with
          | .ok (next_phase, g') =>
            let st := { st with store := { st.store with game := g' } }
            let st := broadcast_phase_change st next_phase
            { st with resolving := false }
          | .error _ => { st with resolving := false }

/-- `_resolve_vote_and_advance`: bail out unchanged when the game id is
already in `_resolving_votes`; otherwise enter the guard, cancel the vote
timeout, and run the body (which releases the guard in its `finally`). -/
def resolve_vote_and_advance (st : SysState) (pick : Nat) : SysState :=
  if st.resolving then st
  else resolve_body { st with resolving := true, vote_timeout_armed := false } pick

/-- `FirestoreService.cast_vote` (an `update_player` on the voter's doc). -/
def cast_vote (s : Store) (voter_id target : String) : Store :=
  { s with players := s.players.map (fun p =>
      if p.id = voter_id then { p with voted_for := some target } else p) }

/-- `FirestoreService.set_night_action`. -/
def set_night_action (s : Store) (pid target : String) : Store :=
  { s with players := s.players.map (fun p =>
      if p.id = pid then { p with night_action := some target } else p) }

/-- Python `str.strip()` (whitespace), modelled on the character list so
that concrete handler runs reduce in the kernel. -/
def py_strip (s : String) : String :=
  String.mk
    (((s.data.dropWhile Char.isWhitespace).reverse.dropWhile Char.isWhitespace).reverse)

/-- The alive character-name set used for target validation: alive players'
names plus the AI's name when it is alive. -/
def alive_chars_of (s : Store) : List String :=
  (get_alive_players s.players).map (fun p => p.character_name) ++
    (match s.game.ai_character with
     | some ai => if ai.alive then [ai.name] else []
     | none => [])

/-- `_on_vote`.  The enforced order: phase, sender alive, non-empty target,
target alive, no vote already cast; then the vote is stored, a
`vote_update` is broadcast, and — when every alive player has voted and the
resolution guard is free — resolution fires. -/
def on_vote (st : SysState) (player_id target_raw : String) (pick : Nat) : SysState :=
  let s := st.store
  if s.game.phase ≠ Phase.day_vote then
    emit st (.sendTo player_id "error" "WRONG_PHASE")
  else
    match id_lookup s.players player_id with
    | none => emit st (.sendTo player_id "error" "PLAYER_ELIMINATED")
    | some player =>
      if ¬ player.alive then
        emit st (.sendTo player_id "error" "PLAYER_ELIMINATED")
      else
        let target := py_strip target_raw
        if target = "" then
          emit st (.sendTo player_id "error" "MISSING_TARGET")
        else if target ∉ alive_chars_of s then
          emit st (.sendTo player_id "error" "INVALID_TARGET")
        else if player.voted_for.isSome then
          emit st (.sendTo player_id "error" "VOTE_ALREADY_CAST")
        else
          let st := { st with store := cast_vote s player_id target }
          let st := emit st (.broadcastMsg "vote_update")
          let all_players := st.store.players
          let voted_count :=
            (all_players.filter (fun p => p.alive && p.voted_for.isSome)).length
          let alive_count := (all_players.filter (fun p => p.alive)).length
          if voted_count ≥ alive_count ∧ ¬ st.resolving then
            resolve_vote_and_advance st pick
          else st

/-- `_resolve_night_and_notify_narrator`: resolve the night; when someone
was killed, eliminate them, broadcast it, and end the game on a win;
otherwise (and after a non-terminal kill) deliver the seer/drunk result
privately.  (The `caught_lie` difficulty signal and the narrator hand-off
touch no claimed state.) -/
def resolve_night_and_notify (st : SysState) (fp : Nat) : SysState :=
  let nr := resolve_night st.store fp
  let night_result := nr.1
  let st1 := { st with store := nr.2 }
  let killedStep : SysState × Bool :=
    if truthy night_result.killed then
      let er := eliminate_character st1.store (night_result.killed.getD "") false
      let st2 := { st1 with store := er.2 }
      let st2 := emit st2 (.broadcastMsg "elimination")
      match check_win_condition st2.store with
      | some win => (end_game st2 win.winner, true)
      | none => (st2, false)
    else (st1, false)
  if killedStep.2 then killedStep.1
  else
    let st3 := killedStep.1
    match night_result.seer_result with
    | some sr =>
      if sr.investigating_player_id ≠ "" then
        emit st3 (.sendTo sr.investigating_player_id "seer_result" "")
      else st3
    | none => st3

/-- The roles entitled to a night action in `_on_night_action`. -/
def night_role (r : Option Role) : Bool :=
  r = some Role.seer ∨ r = some Role.healer ∨ r = some Role.drunk ∨ r = some Role.bodyguard

/-- `_on_night_action`.  The enforced order: phase (`WRONG_PHASE`), sender
exists and is alive (silent drop), sender's role has a night action
(`NO_NIGHT_ACTION`), non-empty target (`MISSING_TARGET`), target alive
(`INVALID_TARGET`), and a healer/bodyguard may not target their own
character (`INVALID_SELF_TARGET`); then the action is stored (overwriting
any previous one) and, once every alive night-role player has a pending
action, night resolution fires. -/
def on_night_action (st : SysState) (player_id target_raw : String) (fp : Nat) : SysState :=
  let s := st.store
  if s.game.phase ≠ Phase.night then
    emit st (.sendTo player_id "error" "WRONG_PHASE")
  else
    match id_lookup s.players player_id with
    | none => st
    | some player =>
      if ¬ player.alive then st
      else if ¬ night_role player.role then
        emit st (.sendTo player_id "error" "NO_NIGHT_ACTION")
      else
        let target := py_strip target_raw
        if target = "" then
          emit st (.sendTo player_id "error" "MISSING_TARGET")
        else if target ∉ alive_chars_of s then
          emit st (.sendTo player_id "error" "INVALID_TARGET")
        else if (player.role = some Role.healer ∨ player.role = some Role.bodyguard) ∧
            target = player.character_name then
          emit st (.sendTo player_id "error" "INVALID_SELF_TARGET")
        else
          let st := { st with store := set_night_action s player_id target }
          let st := emit st (.sendTo player_id "night_action_received" "")
          let night_role_players :=
            st.store.players.filter (fun p => p.alive && night_role p.role)
          let all_acted := night_role_players.all (fun p => truthy p.night_action)
          if all_acted then resolve_night_and_notify st fp else st

-- ── Helper lemmas ────────────────────────────────────────────────────────────

/-- Generalised member tracking for the last-write-wins folds that model
Python dict construction: a successful lookup was written by some list
element satisfying the guard, unless it was already in the accumulator. -/
theorem foldl_write_mem {α β : Type} (q : α → Prop) [DecidablePred q] (g : α → β) :
    ∀ (ps : List α) (a : Option β) (b : β),
      ps.foldl (fun acc x => if q x then some (g x) else acc) a = some b →
      (∃ x ∈ ps, q x ∧ g x = b) ∨ a = some b := by
  intro ps
  induction ps with
  | nil => intro a b h; exact Or.inr h
  | cons x xs ih =>
    intro a b h
    simp only [List.foldl_cons] at h
    rcases ih _ b h with ⟨y, hy, hq, hg⟩ | ha
    · exact Or.inl ⟨y, List.mem_cons_of_mem _ hy, hq, hg⟩
    · by_cases hq : q x
      · rw [if_pos hq] at ha
        exact Or.inl ⟨x, List.mem_cons_self x xs, hq, Option.some_inj.mp ha⟩
      · rw [if_neg hq] at ha
        exact Or.inr ha

/-- Once some element satisfying the guard occurs, the fold yields a value. -/
theorem foldl_write_isSome {α β : Type} (q : α → Prop) [DecidablePred q] (g : α → β) :
    ∀ (ps : List α) (a : Option β),
      (a.isSome ∨ ∃ x ∈ ps, q x) →
      (ps.foldl (fun acc x => if q x then some (g x) else acc) a).isSome := by
  intro ps
  induction ps with
  | nil =>
    intro a h
    rcases h with h | ⟨x, hx, _⟩
    · exact h
    · exact absurd hx (List.not_mem_nil x)
  | cons x xs ih =>
    intro a h
    simp only [List.foldl_cons]
    by_cases hq : q x
    · exact ih _ (Or.inl (by rw [if_pos hq]; rfl))
    · apply ih _
      rcases h with h | ⟨y, hy, hqy⟩
      · exact Or.inl (by rwa [if_neg hq])
      · rcases List.mem_cons.mp hy with rfl | hmem
        · exact absurd hqy hq
        · exact Or.inr ⟨y, hmem, hqy⟩

theorem id_lookup_mem {ps : List PlayerState} {i : String} {p : PlayerState}
    (h : id_lookup ps i = some p) : p ∈ ps ∧ p.id = i := by
  unfold id_lookup at h
  rcases foldl_write_mem (fun x => x.id = i) (fun x => x) ps none p h with
    ⟨x, hx, hq, hg⟩ | hnone
  · exact hg ▸ ⟨hx, hq⟩
  · exact absurd hnone (by simp)

theorem id_lookup_isSome {ps : List PlayerState} {i : String}
    (h : ∃ p ∈ ps, p.id = i) : (id_lookup ps i).isSome := by
  unfold id_lookup
  apply foldl_write_isSome (fun x => x.id = i) (fun x => x) ps none
  rcases h with ⟨p, hp, hpi⟩
  exact Or.inr ⟨p, hp, hpi⟩

theorem role_map_find_mem {alive : List PlayerState} {r : Role} {i : String}
    (h : role_map_find alive r = some i) : ∃ p ∈ alive, p.id = i ∧ p.role = some r := by
  unfold role_map_find at h
  rcases foldl_write_mem (fun p => p.role = some r) (fun p => p.id) alive none i h
    with ⟨x, hx, hq, hg⟩ | hnone
  · exact ⟨x, hx, hg, hq⟩
  · exact absurd hnone (by simp)

theorem tally_sum_append (t u : List (String × Nat)) :
    tally_sum (t ++ u) = tally_sum t + tally_sum u := by
  simp [tally_sum]

theorem map_bump_id {t : List (String × Nat)} {c : String}
    (h : ∀ kv ∈ t, kv.1 ≠ c) :
    t.map (fun kv => if kv.1 = c then (kv.1, kv.2 + 1) else kv) = t := by
  induction t with
  | nil => rfl
  | cons kv rest ih =>
    simp only [List.map_cons]
    rw [if_neg (h kv (List.mem_cons_self kv rest)), ih (fun x hx => h x (List.mem_cons_of_mem _ hx))]

theorem bump_ne_nil (t : List (String × Nat)) (c : String) : bump t c ≠ [] := by
  unfold bump
  split
  · next hany =>
    intro hmap
    rcases List.any_eq_true.mp hany with ⟨kv, hkv, _⟩
    rw [List.map_eq_nil_iff] at hmap
    exact absurd (hmap ▸ hkv) (List.not_mem_nil kv)
  · simp

theorem bump_keys_nodup {t : List (String × Nat)} {c : String}
    (h : (t.map Prod.fst).Nodup) : ((bump t c).map Prod.fst).Nodup := by
  unfold bump
  split
  · next =>
    have : (t.map (fun kv => if kv.1 = c then (kv.1, kv.2 + 1) else kv)).map Prod.fst =
        t.map Prod.fst := by
      rw [List.map_map]
      apply List.map_congr_left
      intro kv _
      by_cases hc : kv.1 = c <;> simp [hc]
    rw [this]
    exact h
  · next hany =>
    rw [List.map_append]
    simp only [List.map_cons, List.map_nil]
    apply List.Nodup.append h (List.nodup_singleton c)
    intro a ha hb
    simp only [List.mem_singleton] at hb
    subst hb
    rcases List.mem_map.mp ha with ⟨kv, hkv, hfst⟩
    exact hany (List.any_eq_true.mpr ⟨kv, hkv, by simpa using hfst⟩)

theorem tally_sum_bump {t : List (String × Nat)} {c : String}
    (h : (t.map Prod.fst).Nodup) : tally_sum (bump t c) = tally_sum t + 1 := by
  unfold bump
  split
  · next hany =>
    induction t with
    | nil => simp at hany
    | cons kv rest ih =>
      simp only [List.map_cons, List.nodup_cons] at h
      by_cases hc : kv.1 = c
      · have hrest : ∀ x ∈ rest, x.1 ≠ c := by
          intro x hx hxc
          exact h.1 (hc ▸ hxc ▸ List.mem_map_of_mem Prod.fst hx)
        simp only [List.map_cons, if_pos hc, map_bump_id hrest, tally_sum, List.map_cons,
          List.sum_cons]
        omega
      · have hany2 : rest.any (fun kv => kv.1 = c) = true := by
          rcases List.any_eq_true.mp hany with ⟨x, hx, hxc⟩
          rcases List.mem_cons.mp hx with rfl | hmem
          · exact absurd (by simpa using hxc) hc
          · exact List.any_eq_true.mpr ⟨x, hmem, hxc⟩
        have := ih h.2 hany2
        simp only [List.map_cons, if_neg hc, tally_sum, List.map_cons, List.sum_cons] at this ⊢
        omega
  · next =>
    rw [tally_sum_append]
    simp [tally_sum]

theorem get_vote_tally_aux (ps : List PlayerState) :
    ∀ (t : List (String × Nat)), (t.map Prod.fst).Nodup →
      tally_sum (ps.foldl (fun t p => match p.voted_for with
          | some c => bump t c
          | none => t) t) = tally_sum t + non_null_votes ps ∧
      ((ps.foldl (fun t p => match p.voted_for with
          | some c => bump t c
          | none => t) t).map Prod.fst).Nodup := by
  induction ps with
  | nil => intro t h; simp [non_null_votes]; exact h
  | cons p rest ih =>
    intro t h
    simp only [List.foldl_cons]
    cases hv : p.voted_for with
    | none =>
      have := ih t h
      simp only [non_null_votes, List.filter_cons, hv] at this ⊢
      simpa using this
    | some c =>
      have := ih (bump t c) (bump_keys_nodup h)
      rw [tally_sum_bump h] at this
      simp only [non_null_votes, List.filter_cons, hv] at this ⊢
      constructor
      · rw [this.1]; simp; omega
      · exact this.2

theorem get_vote_tally_sum (ps : List PlayerState) :
    tally_sum (get_vote_tally ps) = non_null_votes ps := by
  have := get_vote_tally_aux ps [] (by simp)
  simpa [get_vote_tally, tally_sum] using this.1

theorem get_vote_tally_nodup (ps : List PlayerState) :
    ((get_vote_tally ps).map Prod.fst).Nodup := by
  exact (get_vote_tally_aux ps [] (by simp)).2

theorem tally_with_ai_sum (s : Store) :
    tally_sum (tally_with_ai s) =
      non_null_votes s.players +
        (match s.game.ai_character with
         | some ai => if ai.alive ∧ ai.voted_for.isSome then 1 else 0
         | none => 0) := by
  unfold tally_with_ai
  rcases hai : s.game.ai_character with _ | ai
  · simp [get_vote_tally_sum]
  · rcases halive : ai.alive
    · simp [halive, get_vote_tally_sum]
    · rcases hv : ai.voted_for with _ | v
      · simp [halive, hv, get_vote_tally_sum]
      · simp only [halive, hv, if_true]
        rw [tally_sum_bump (get_vote_tally_nodup s.players), get_vote_tally_sum]
        simp

theorem tally_with_ai_nodup (s : Store) :
    ((tally_with_ai s).map Prod.fst).Nodup := by
  unfold tally_with_ai
  rcases s.game.ai_character with _ | ai
  · exact get_vote_tally_nodup s.players
  · rcases halive : ai.alive
    · simp only [halive, Bool.false_eq_true, if_false]
      exact get_vote_tally_nodup s.players
    · rcases hv : ai.voted_for with _ | v
      · simp only [halive, hv, if_true]
        exact get_vote_tally_nodup s.players
      · simp only [halive, hv, if_true]
        exact bump_keys_nodup (get_vote_tally_nodup s.players)

theorem tally_votes_tally (s : Store) (pick : Nat) :
    (tally_votes s pick).1.tally = tally_with_ai s := by
  simp only [tally_votes]
  split
  · next hemp => simp only []; exact (List.isEmpty_iff.mp hemp).symm
  · split <;> rfl

theorem tally_votes_store (s : Store) (pick : Nat) :
    (tally_votes s pick).2 = tally_clear_ai_vote s := by
  simp only [tally_votes]
  split
  · rfl
  · split <;> rfl

/-- C4: `tally_votes` returns a tally whose values sum to the number of
non-null votes counted — the players' non-null votes plus the hidden AI's
mirrored vote when the AI is alive and has voted — and clears the AI's vote
in the store after counting; an empty tally yields exactly the `no_votes`
result; and on a tie among `N > 1` leaders at the maximum count, `tied`
lists exactly those leaders and the returned `eliminated` is one of them. -/
theorem tally_votes_spec (s : Store) (pick : Nat) :
    tally_sum (tally_votes s pick).1.tally =
      non_null_votes s.players +
        (match s.game.ai_character with
         | some ai => if ai.alive ∧ ai.voted_for.isSome then 1 else 0
         | none => 0) ∧
    (∀ ai, s.game.ai_character = some ai → ai.alive = true → ai.voted_for.isSome →
      (tally_votes s pick).2.game.ai_character = some { ai with voted_for := none }) ∧
    ((tally_votes s pick).1.result = "no_votes" ↔ (tally_votes s pick).1.tally = []) ∧
    (1 < (leaders_of (tally_votes s pick).1.tally).length →
      (tally_votes s pick).1.tied = leaders_of (tally_votes s pick).1.tally ∧
      ∃ el, (tally_votes s pick).1.eliminated = some el ∧
        el ∈ leaders_of (tally_votes s pick).1.tally) := by
  refine ⟨?_, ?_, ?_, ?_⟩
  · rw [tally_votes_tally, tally_with_ai_sum]
  · intro ai hai halive hv
    rw [tally_votes_store]
    unfold tally_clear_ai_vote
    simp [hai, halive, hv]
  · simp only [tally_votes]
    split
    · next hemp => simp
    · next hne =>
      split
      · simp only []
        constructor
        · intro h; exact absurd h (by decide)
        · intro h; exact absurd h (by simpa using hne)
      · simp only []
        constructor
        · intro h; exact absurd h (by decide)
        · intro h; exact absurd h (by simpa using hne)
  · rw [tally_votes_tally]
    intro h1N
    simp only [tally_votes]
    split
    · next hemp =>
      rw [List.isEmpty_iff.mp hemp] at h1N
      simp [leaders_of, max_votes_of] at h1N
    · next hne =>
      split
      · next hlen =>
        rw [hlen] at h1N
        exact absurd h1N (by omega)
      · next hlen =>
        refine ⟨rfl, ?_⟩
        have hpos : 0 < (leaders_of (tally_with_ai s)).length := by omega
        have hlt : pick % (leaders_of (tally_with_ai s)).length <
            (leaders_of (tally_with_ai s)).length := Nat.mod_lt _ hpos
        refine ⟨(leaders_of (tally_with_ai s)).get ⟨_, hlt⟩, ?_, ?_⟩
        · simp only []
          exact List.get?_eq_get hlt
        · exact List.get_mem _ _ hlt

theorem check_win_condition_eq (s : Store) :
    check_win_condition s =
      (match s.game.ai_character with
       | none => some villagers_win
       | some ai =>
         if ai.alive then
           (if (get_alive_players s.players).length <= 1 then
             (if s.game.round < (MINIMUM_ROUNDS s.game.character_cast.length).getD 3 then
               none
             else some shapeshifter_win)
           else none)
         else if ai.is_traitor then some villagers_win else none) := by
  unfold check_win_condition
  rcases s.game.ai_character with _ | ai
  · rfl
  · dsimp only
    cases hal : ai.alive
    · cases htr : ai.is_traitor <;> simp [hal, htr]
    · simp [hal]

/-- C3: `check_win_condition` returns the villager win the moment the
hostile (traitor) adversary is dead, with no round floor (the round is
arbitrary here); it returns the shapeshifter win only when at most one human
is alive and the round has reached the per-roster-size floor
(`MINIMUM_ROUNDS`, default 3); and when at most one human is alive but the
round is below the floor it returns `none` — and, being a pure read of the
snapshot, it changes no state. -/
theorem check_win_condition_spec (s : Store) :
    (∀ ai, s.game.ai_character = some ai → ai.is_traitor = true → ai.alive = false →
      check_win_condition s = some villagers_win) ∧
    (∀ w, check_win_condition s = some w → w.winner = "shapeshifter" →
      (get_alive_players s.players).length ≤ 1 ∧
        (MINIMUM_ROUNDS s.game.character_cast.length).getD 3 ≤ s.game.round) ∧
    (∀ ai, s.game.ai_character = some ai → ai.alive = true →
      (get_alive_players s.players).length ≤ 1 →
      s.game.round < (MINIMUM_ROUNDS s.game.character_cast.length).getD 3 →
      check_win_condition s = none) := by
  refine ⟨?_, ?_, ?_⟩
  · intro ai hai htr hal
    rw [check_win_condition_eq, hai]
    simp [hal, htr]
  · intro w hw hwin
    rw [check_win_condition_eq] at hw
    rcases hai : s.game.ai_character with _ | ai
    · rw [hai] at hw
      dsimp only at hw
      simp only [Option.some_inj] at hw
      rw [← hw] at hwin
      exact absurd hwin (by decide)
    · rw [hai] at hw
      dsimp only at hw
      cases hal : ai.alive
      · rw [hal] at hw
        simp only [Bool.false_eq_true, if_false] at hw
        cases htr : ai.is_traitor
        · rw [htr] at hw
          simp at hw
        · rw [htr] at hw
          simp only [if_true, Option.some_inj] at hw
          rw [← hw] at hwin
          exact absurd hwin (by decide)
      · rw [hal] at hw
        simp only [if_true] at hw
        by_cases hle : (get_alive_players s.players).length ≤ 1
        · rw [if_pos hle] at hw
          by_cases hlt : s.game.round <
              (MINIMUM_ROUNDS s.game.character_cast.length).getD 3
          · rw [if_pos hlt] at hw
            simp at hw
          · rw [if_neg hlt] at hw
            exact ⟨hle, by omega⟩
        · rw [if_neg hle] at hw
          simp at hw
  · intro ai hai hal hle hlt
    rw [check_win_condition_eq, hai]
    dsimp only
    simp only [hal, if_true]
    rw [if_pos hle, if_pos hlt]

theorem advance_phase_cases (g : GameState) (p : Phase) (g' : GameState)
    (h : advance_phase (some g) = .ok (p, g')) :
    (g.phase = Phase.setup ∧ p = Phase.night ∧
      g' = { g with phase := Phase.night, round := 1 }) ∨
    (g.phase = Phase.night ∧ p = Phase.day_discussion ∧
      g' = { g with phase := Phase.day_discussion }) ∨
    (g.phase = Phase.day_discussion ∧ p = Phase.day_vote ∧
      g' = { g with phase := Phase.day_vote }) ∨
    (g.phase = Phase.day_vote ∧ p = Phase.elimination ∧
      g' = { g with phase := Phase.elimination }) ∨
    (g.phase = Phase.elimination ∧ p = Phase.night ∧
      g' = { g with phase := Phase.night, round := g.round + 1 }) := by
  cases hp : g.phase <;>
    simp only [advance_phase, hp, list_index, PHASE_CYCLE, set_phase] at h <;>
    simp at h <;>
    simp [hp, ← h.1, ← h.2, set_phase]

/-- C5: `advance_phase` maps `SETUP` to `NIGHT` with round 1; steps
`NIGHT → DAY_DISCUSSION → DAY_VOTE → ELIMINATION → NIGHT`, adding 1 to the
round exactly when the destination is `NIGHT` and writing the round in no
other transition; and fails with the not-found error when the game document
is missing and with the invalid-state error when the current phase is
outside the cycle (`GAME_OVER`). -/
theorem advance_phase_spec :
    advance_phase none = .error .notFound ∧
    (∀ g, g.phase = Phase.setup →
      advance_phase (some g) =
        .ok (Phase.night, { g with phase := Phase.night, round := 1 })) ∧
    (∀ g, g.phase = Phase.night →
      advance_phase (some g) =
        .ok (Phase.day_discussion, { g with phase := Phase.day_discussion })) ∧
    (∀ g, g.phase = Phase.day_discussion →
      advance_phase (some g) =
        .ok (Phase.day_vote, { g with phase := Phase.day_vote })) ∧
    (∀ g, g.phase = Phase.day_vote →
      advance_phase (some g) =
        .ok (Phase.elimination, { g with phase := Phase.elimination })) ∧
    (∀ g, g.phase = Phase.elimination →
      advance_phase (some g) =
        .ok (Phase.night, { g with phase := Phase.night, round := g.round + 1 })) ∧
    (∀ g, g.phase = Phase.game_over →
      advance_phase (some g) = .error (.invalidState Phase.game_over)) := by
  refine ⟨rfl, ?_, ?_, ?_, ?_, ?_, ?_⟩ <;>
    intro g h <;>
    simp [advance_phase, h, list_index, PHASE_CYCLE, set_phase]

-- ── Reachability (C8) ────────────────────────────────────────────────────────

/-- The session states reachable by the code paths that write `phase` or
`round`: the freshly created game document (`GameState` defaults in
`models/game.py`: phase `SETUP`, round 0) and `advance_phase` steps —
`FirestoreService.set_phase` is called from `GameMaster.advance_phase`
alone, and no other `update_game` call writes `phase` or `round`. -/
inductive ReachableGame : GameState → Prop
  | init (g : GameState) : g.phase = Phase.setup → g.round = 0 → ReachableGame g
  | step (g g' : GameState) (p : Phase) :
      ReachableGame g → advance_phase (some g) = .ok (p, g') → ReachableGame g'

theorem reachable_setup_round (g : GameState) (h : ReachableGame g) :
    g.phase = Phase.setup → g.round = 0 := by
  induction h with
  | init g hp hr => intro _; exact hr
  | step g g' p hg hstep ih =>
    intro hp'
    rcases advance_phase_cases g p g' hstep with
      ⟨_, _, hg'⟩ | ⟨_, _, hg'⟩ | ⟨_, _, hg'⟩ | ⟨_, _, hg'⟩ | ⟨_, _, hg'⟩ <;>
      rw [hg'] at hp' <;> exact absurd hp' (by simp)

/-- C8: every reachable session keeps its phase within the fixed cycle plus
`SETUP` and `GAME_OVER`, and every `phase`-writing step (`advance_phase`, the
only writer of `phase`/`round`) is round-monotone, adding exactly 1 to the
round precisely on the transitions into `NIGHT` and leaving it unchanged
otherwise. -/
theorem reachable_phase_round_spec (g : GameState) (h : ReachableGame g) :
    (g.phase = Phase.setup ∨ g.phase ∈ PHASE_CYCLE ∨ g.phase = Phase.game_over) ∧
    (∀ p g', advance_phase (some g) = .ok (p, g') →
      g.round ≤ g'.round ∧ (g'.round = g.round + 1 ↔ g'.phase = Phase.night) ∧
      (g'.phase ≠ Phase.night → g'.round = g.round)) := by
  constructor
  · induction h with
    | init g hp _ => exact Or.inl hp
    | step g g' p hg hstep ih =>
      rcases advance_phase_cases g p g' hstep with
        ⟨_, _, hg'⟩ | ⟨_, _, hg'⟩ | ⟨_, _, hg'⟩ | ⟨_, _, hg'⟩ | ⟨_, _, hg'⟩ <;>
        rw [hg'] <;> simp [PHASE_CYCLE]
  · intro p g' hstep
    rcases advance_phase_cases g p g' hstep with
      ⟨hp, _, hg'⟩ | ⟨_, _, hg'⟩ | ⟨_, _, hg'⟩ | ⟨_, _, hg'⟩ | ⟨_, _, hg'⟩
    · have hr0 := reachable_setup_round g h hp
      rw [hg']
      simp [hr0]
    · rw [hg']; simp
    · rw [hg']; simp
    · rw [hg']; simp
    · rw [hg']; simp

/-- C2: night-resolution precedence, for any snapshot whose (truthy) kill
target is `t`: a matching healer protection blocks the kill entirely
(`killed = None`); otherwise a matching bodyguard protection kills the
bodyguard in the target's place with `bodyguard_sacrifice` set; otherwise
the target dies and `hunter_triggered` holds exactly when the killed target
is an alive player holding the Hunter role. -/
theorem resolve_night_precedence (s : Store) (fp : Nat) (t : String)
    (ht : shapeshifter_target_of s fp = some t) (htne : t ≠ "") :
    (protected_of s = some t → (resolve_night s fp).1.killed = none) ∧
    (protected_of s ≠ some t → bodyguard_target_of s = some t →
      ∃ bgid bg,
        role_map_find (get_alive_players s.players) Role.bodyguard = some bgid ∧
        id_lookup (get_alive_players s.players) bgid = some bg ∧
        (resolve_night s fp).1.killed = some bg.character_name ∧
        (resolve_night s fp).1.bodyguard_sacrifice = true) ∧
    (protected_of s ≠ some t → bodyguard_target_of s ≠ some t →
      (resolve_night s fp).1.killed = some t ∧
      ((resolve_night s fp).1.hunter_triggered = true ↔
        ∃ v, char_lookup (get_alive_players s.players) t = some v ∧
          v.role = some Role.hunter)) := by
  have hk : (resolve_night s fp).1.killed = (night_kill_of s fp).1 := rfl
  have hh : (resolve_night s fp).1.hunter_triggered = (night_kill_of s fp).2.1 := rfl
  have hb : (resolve_night s fp).1.bodyguard_sacrifice = (night_kill_of s fp).2.2 := rfl
  refine ⟨?_, ?_, ?_⟩
  · intro hpt
    rw [hk]
    simp only [night_kill_of]
    rw [ht, hpt]
    simp [truthy, htne]
  · intro hpt hbt
    have hpt2 : (some t = protected_of s) ↔ False :=
      ⟨fun h => hpt h.symm, False.elim⟩
    have hex : ∃ bgid,
        role_map_find (get_alive_players s.players) Role.bodyguard = some bgid := by
      unfold bodyguard_target_of at hbt
      rcases hrm : role_map_find (get_alive_players s.players) Role.bodyguard with _ | bgid
      · rw [hrm] at hbt; simp at hbt
      · exact ⟨bgid, rfl⟩
    rcases hex with ⟨bgid, hrm⟩
    have hbgsome : (id_lookup (get_alive_players s.players) bgid).isSome := by
      rcases role_map_find_mem hrm with ⟨p, hp, hpid, _⟩
      exact id_lookup_isSome ⟨p, hp, hpid⟩
    rcases hlook : id_lookup (get_alive_players s.players) bgid with _ | bg
    · rw [hlook] at hbgsome; simp at hbgsome
    · refine ⟨bgid, bg, hrm, hlook, ?_, ?_⟩
      · rw [hk]
        simp only [night_kill_of]
        rw [ht, hbt, hrm]
        dsimp only
        rw [hlook]
        simp [truthy, htne, hpt2]
      · rw [hb]
        simp only [night_kill_of]
        rw [ht, hbt, hrm]
        dsimp only
        rw [hlook]
        simp [truthy, htne, hpt2]
  · intro hpt hbt
    have hpt2 : (some t = protected_of s) ↔ False :=
      ⟨fun h => hpt h.symm, False.elim⟩
    have hbt2 : (some t = bodyguard_target_of s) ↔ False :=
      ⟨fun h => hbt h.symm, False.elim⟩
    constructor
    · rw [hk]
      simp only [night_kill_of]
      rw [ht]
      rcases hcl : char_lookup (get_alive_players s.players) t with _ | v <;>
        simp [truthy, htne, hpt2, hbt2, hcl]
    · rw [hh]
      simp only [night_kill_of]
      rw [ht]
      rcases hcl : char_lookup (get_alive_players s.players) t with _ | v <;>
        simp [truthy, htne, hpt2, hbt2, hcl]

-- ── Elimination bookkeeping lemmas ───────────────────────────────────────────

/-- Number of `elimination` events in the log. -/
def elim_event_count (s : Store) : Nat :=
  (s.events.filter (fun e => e.type = "elimination")).length

/-- The `found` test of `eliminate_character`: the name denotes the AI
character or some player. -/
def character_known (s : Store) (c : String) : Bool :=
  (match s.game.ai_character with
   | some ai => decide (ai.name = c)
   | none => false) ||
  (s.players.find? (fun p => p.character_name = c)).isSome

theorem eliminate_by_character_events (s : Store) (c : String) :
    (eliminate_by_character s c).events = s.events := by
  unfold eliminate_by_character
  split
  · rfl
  · rcases s.game.ai_character with _ | ai
    · rfl
    · dsimp only
      split <;> rfl

theorem eliminate_by_character_game_phase (s : Store) (c : String) :
    (eliminate_by_character s c).game.phase = s.game.phase := by
  unfold eliminate_by_character
  split
  · rfl
  · rcases s.game.ai_character with _ | ai
    · rfl
    · dsimp only
      split <;> rfl

theorem clear_votes_events (s : Store) : (clear_votes s).events = s.events := rfl

theorem eliminate_character_unknown (s : Store) (c : String) (bv : Bool)
    (h : character_known s c = false) : (eliminate_character s c bv).2 = s := by
  unfold character_known at h
  rcases hai : s.game.ai_character with _ | ai <;> rw [hai] at h <;>
    simp only [Bool.false_or, Bool.or_eq_false_iff] at h
  · rcases hfp : s.players.find? (fun p => p.character_name = c) with _ | p
    · simp [eliminate_character, hai, hfp]
    · rw [hfp] at h; simp at h
  · rcases hfp : s.players.find? (fun p => p.character_name = c) with _ | p
    · have hname : ¬ (ai.name = c) := by simpa using h.1
      simp [eliminate_character, hai, hfp, hname]
    · rw [hfp] at h; simp at h

theorem eliminate_character_elim_count (s : Store) (c : String) (bv : Bool)
    (h : character_known s c = true) :
    elim_event_count (eliminate_character s c bv).2 = elim_event_count s + 1 := by
  unfold character_known at h
  rcases hai : s.game.ai_character with _ | ai <;> rw [hai] at h
  · simp only [Bool.false_or] at h
    rcases hfp : s.players.find? (fun p => p.character_name = c) with _ | p
    · rw [hfp] at h; simp at h
    · simp only [eliminate_character, hai, hfp]
      simp [elim_event_count, List.filter_append, eliminate_by_character_events,
        clear_votes_events]
  · by_cases hname : ai.name = c
    · simp only [eliminate_character, hai, hname]
      simp [elim_event_count, List.filter_append, clear_votes_events]
    · have hfind : (s.players.find? (fun p => p.character_name = c)).isSome := by
        simpa [hname] using h
      rcases hfp : s.players.find? (fun p => p.character_name = c) with _ | p
      · rw [hfp] at hfind; simp at hfind
      · simp only [eliminate_character, hai, hfp, hname]
        simp [elim_event_count, List.filter_append, eliminate_by_character_events,
          clear_votes_events, hname]

/-- A store for which the claim fails: the character `Alice` is already
eliminated (alive = false) yet still listed among the players. -/
def c7_store : Store :=
  { game := { status := .in_progress, phase := .elimination, round := 2,
              character_cast := ["Alice", "Bob", "Morrigan"],
              ai_character := some { name := "Morrigan", role := .shapeshifter,
                                     alive := true, voted_for := none,
                                     is_traitor := true } },
    players :=
      [{ id := "p1", name := "P1", character_name := "Alice",
         role := some .villager, alive := false, connected := true, ready := true,
         voted_for := none, night_action := none },
       { id := "p2", name := "P2", character_name := "Bob",
         role := some .seer, alive := true, connected := true, ready := true,
         voted_for := some "Bob", night_action := none }],
    events := [] }

/-- C7, counterexample: calling `eliminate_character` a second time for an
already-eliminated character is *not* a no-op — with `Alice` already dead it
logs another `elimination` event and clears Bob's pending vote, contradicting
the claim that only a warning is logged and no state changes. -/
theorem eliminate_character_repeat_counterexample :
    (char_lookup c7_store.players "Alice").map (fun p => p.alive) = some false ∧
    elim_event_count (eliminate_character c7_store "Alice" true).2 =
      elim_event_count c7_store + 1 ∧
    ((eliminate_character c7_store "Alice" true).2.players.map
      (fun p => p.voted_for)) = [none, none] ∧
    (eliminate_character c7_store "Alice" true).2 ≠ c7_store := by decide

/-- C7 (amended): `eliminate_character` is a no-op (state unchanged, only a
warning logged) exactly when the named character is unknown — neither the AI
nor any player; for a *known* character the call always clears the votes and
logs an `elimination` event, even when that character was already eliminated,
so a duplicate call logs a second event. -/
theorem eliminate_character_noop_spec (s : Store) (c : String) (bv : Bool) :
    (character_known s c = false → (eliminate_character s c bv).2 = s) ∧
    (character_known s c = true →
      elim_event_count (eliminate_character s c bv).2 = elim_event_count s + 1) :=
  ⟨eliminate_character_unknown s c bv, eliminate_character_elim_count s c bv⟩

/-- Closed witness for the C7 amended theorem at concrete inputs. -/
theorem eliminate_character_noop_spec_witness :
    character_known c7_store "Zed" = false ∧
    (eliminate_character c7_store "Zed" true).2 = c7_store ∧
    character_known c7_store "Bob" = true ∧
    elim_event_count (eliminate_character c7_store "Bob" false).2 =
      elim_event_count c7_store + 1 :=
  ⟨by decide,
   (eliminate_character_noop_spec c7_store "Zed" true).1 (by decide),
   by decide,
   (eliminate_character_noop_spec c7_store "Bob" false).2 (by decide)⟩

-- ── Resolution-guard lemmas (C1) ─────────────────────────────────────────────

/-- Number of `phase_change` broadcasts in an output trace. -/
def phase_change_count (ms : List OutMsg) : Nat :=
  (ms.filter (fun m => m = OutMsg.broadcastMsg "phase_change")).length

theorem elim_event_count_congr {s1 s2 : Store} (h : s1.events = s2.events) :
    elim_event_count s1 = elim_event_count s2 := by
  unfold elim_event_count
  rw [h]

theorem tally_clear_ai_vote_events (s : Store) :
    (tally_clear_ai_vote s).events = s.events := by
  unfold tally_clear_ai_vote
  rcases s.game.ai_character with _ | ai
  · rfl
  · dsimp only
    split <;> rfl

theorem tally_clear_ai_vote_phase (s : Store) :
    (tally_clear_ai_vote s).game.phase = s.game.phase := by
  unfold tally_clear_ai_vote
  rcases s.game.ai_character with _ | ai
  · rfl
  · dsimp only
    split <;> rfl

theorem clear_votes_game (s : Store) : (clear_votes s).game = s.game := rfl

theorem eliminate_character_game_phase (s : Store) (c : String) (bv : Bool) :
    (eliminate_character s c bv).2.game.phase = s.game.phase := by
  rcases hai : s.game.ai_character with _ | ai
  · rcases hfp : s.players.find? (fun p => p.character_name = c) with _ | p
    · simp [eliminate_character, hai, hfp]
    · simp [eliminate_character, hai, hfp, clear_votes_game,
        eliminate_by_character_game_phase]
  · by_cases hname : ai.name = c
    · simp [eliminate_character, hai, hname, clear_votes_game]
    · rcases hfp : s.players.find? (fun p => p.character_name = c) with _ | p
      · simp [eliminate_character, hai, hfp, hname]
      · simp [eliminate_character, hai, hfp, hname, clear_votes_game,
          eliminate_by_character_game_phase]

/-- C1: the `_resolving_votes` guard makes vote resolution fire at most once.
(1) While the game id is in the guard set, a second call to
`_resolve_vote_and_advance` returns with the state untouched — no tally (no
AI-vote clear), no elimination, no phase advance, no message sent.
(2) A full run from an unguarded state on the normal path — some character
eliminated, no tanner/loyal-AI/win short-circuit — logs exactly one
`elimination` event and broadcasts exactly one `phase_change`, and releases
the guard; hence two concurrent "last vote" triggers, the second of which
runs while the first holds the guard, produce exactly one elimination and
one phase advance in total. -/
theorem resolve_vote_guard_spec :
    (∀ (st : SysState) (pick : Nat), st.resolving = true →
      resolve_vote_and_advance st pick = st) ∧
    (∀ (st : SysState) (pick : Nat) (e : String),
      st.resolving = false →
      st.store.game.phase = Phase.day_vote →
      (tally_votes st.store pick).1.result ≠ "no_votes" →
      (tally_votes st.store pick).1.eliminated = some e →
      character_known (tally_votes st.store pick).2 e = true →
      (eliminate_character (tally_votes st.store pick).2 e true).1.role ≠ some "tanner" →
      (eliminate_character (tally_votes st.store pick).2 e true).1.is_loyal_ai = false →
      check_win_condition (eliminate_character (tally_votes st.store pick).2 e true).2 =
        none →
      elim_event_count (resolve_vote_and_advance st pick).store =
        elim_event_count st.store + 1 ∧
      phase_change_count (resolve_vote_and_advance st pick).sent =
        phase_change_count st.sent + 1 ∧
      (resolve_vote_and_advance st pick).resolving = false) := by
  constructor
  · intro st pick h
    simp [resolve_vote_and_advance, h]
  · intro st pick e h0 hph h1 h2 hk h3 h4 h5
    have hres : resolve_vote_and_advance st pick =
        resolve_body { st with resolving := true, vote_timeout_armed := false } pick := by
      simp [resolve_vote_and_advance, h0]
    have hphase2 :
        (eliminate_character (tally_votes st.store pick).2 e true).2.game.phase =
          Phase.day_vote := by
      rw [eliminate_character_game_phase, tally_votes_store, tally_clear_ai_vote_phase,
        hph]
    have hadv : advance_phase
        (some (eliminate_character (tally_votes st.store pick).2 e true).2.game) =
        .ok (Phase.elimination,
          set_phase (eliminate_character (tally_votes st.store pick).2 e true).2.game
            Phase.elimination none) := by
      simp [advance_phase, hphase2, list_index, PHASE_CYCLE]
    rw [hres]
    simp only [resolve_body]
    rw [if_neg h1, h2]
    dsimp only
    rw [if_neg h3]
    simp only [h4, Bool.false_eq_true, if_false, emit]
    rw [h5]
    dsimp only
    rw [hadv]
    simp only [broadcast_phase_change, emit]
    simp only [show (Phase.elimination = Phase.day_vote) = False by simp, if_false]
    have hev : ((tally_votes st.store pick).2).events = st.store.events := by
      rw [tally_votes_store, tally_clear_ai_vote_events]
    refine ⟨?_, ?_, trivial⟩
    · have h6 := eliminate_character_elim_count (tally_votes st.store pick).2 e true hk
      rw [elim_event_count_congr
        (show ((tally_votes st.store pick).2).events = st.store.events from hev)] at h6
      calc elim_event_count _
          = elim_event_count (eliminate_character (tally_votes st.store pick).2 e true).2 :=
            elim_event_count_congr rfl
        _ = elim_event_count st.store + 1 := h6
    · simp [phase_change_count, List.filter_append]

/-- A day-vote store on the normal resolution path: three of four players
and the AI have voted, `Alice` leads the tally. -/
def c1_store : Store :=
  { game := { status := .in_progress, phase := .day_vote, round := 1,
              character_cast := ["Alice", "Bob", "Carol", "Dave", "Morrigan"],
              ai_character := some { name := "Morrigan", role := .shapeshifter,
                                     alive := true, voted_for := some "Alice",
                                     is_traitor := true } },
    players :=
      [{ id := "p1", name := "P1", character_name := "Alice",
         role := some .villager, alive := true, connected := true, ready := true,
         voted_for := some "Bob", night_action := none },
       { id := "p2", name := "P2", character_name := "Bob",
         role := some .seer, alive := true, connected := true, ready := true,
         voted_for := some "Alice", night_action := none },
       { id := "p3", name := "P3", character_name := "Carol",
         role := some .healer, alive := true, connected := true, ready := true,
         voted_for := some "Alice", night_action := none },
       { id := "p4", name := "P4", character_name := "Dave",
         role := some .hunter, alive := true, connected := true, ready := true,
         voted_for := none, night_action := none }],
    events := [] }

def c1_free : SysState :=
  { store := c1_store, resolving := false, vote_timeout_armed := true, sent := [] }

def c1_busy : SysState :=
  { store := c1_store, resolving := true, vote_timeout_armed := true, sent := [] }

/-- Closed witness for C1 at concrete inputs: a call under the guard is the
identity, and a full run of the normal path yields exactly one elimination
event and one phase-change broadcast. -/
theorem resolve_vote_guard_spec_witness :
    resolve_vote_and_advance c1_busy 0 = c1_busy ∧
    (elim_event_count (resolve_vote_and_advance c1_free 0).store =
        elim_event_count c1_free.store + 1 ∧
      phase_change_count (resolve_vote_and_advance c1_free 0).sent =
        phase_change_count c1_free.sent + 1 ∧
      (resolve_vote_and_advance c1_free 0).resolving = false) :=
  ⟨resolve_vote_guard_spec.1 c1_busy 0 rfl,
   resolve_vote_guard_spec.2 c1_free 0 "Alice" rfl rfl (by decide) (by decide)
     (by decide) (by decide) (by decide) (by decide)⟩

-- ── Connection hub lemmas (C9) ───────────────────────────────────────────────

theorem broadcast_go_snd (todo : List (String × Bool)) :
    ∀ (live : List (String × Bool)) (delivered : List String) (exclude : Option String),
      (broadcast_go live delivered todo exclude).2 =
        delivered ++
          (todo.filter (fun c => c.2 && decide (some c.1 ≠ exclude))).map Prod.fst := by
  induction todo with
  | nil => intro live delivered exclude; simp [broadcast_go]
  | cons c rest ih =>
    intro live delivered exclude
    by_cases hex : some c.1 = exclude
    · simp only [broadcast_go, if_pos hex, ih]
      simp [hex]
    · rcases hc2 : c.2
      · simp only [broadcast_go, if_neg hex, hc2, Bool.false_eq_true, if_false, ih]
        simp [hex, hc2]
      · simp only [broadcast_go, if_neg hex, hc2, if_true, ih]
        simp [hex, hc2]

theorem broadcast_go_fst (todo : List (String × Bool)) :
    ∀ (live : List (String × Bool)) (delivered : List String) (exclude : Option String),
      (broadcast_go live delivered todo exclude).1 =
        live.filter (fun c =>
          ! todo.any (fun f => !f.2 && decide (some f.1 ≠ exclude) && decide (f.1 = c.1))) := by
  induction todo with
  | nil => intro live delivered exclude; simp [broadcast_go]
  | cons c rest ih =>
    intro live delivered exclude
    by_cases hex : some c.1 = exclude
    · simp only [broadcast_go, if_pos hex, ih]
      apply List.filter_congr
      intro x _
      simp [hex]
    · rcases hc2 : c.2
      · -- failed send: the player is dropped from the live map
        simp only [broadcast_go, if_neg hex, hc2, Bool.false_eq_true, if_false, ih,
          disconnect, List.filter_filter]
        apply List.filter_congr
        intro x _
        have hA : decide (some c.1 ≠ exclude) = true := by simpa using hex
        simp only [List.any_cons, hc2, Bool.not_false, hA, Bool.true_and, Bool.and_true,
          Bool.not_or, Bool.and_comm]
        by_cases hx : c.1 = x.1
        · rw [show decide (x.1 ≠ c.1) = false by simp [hx], show decide (c.1 = x.1) = true by
            simp [hx]]
          simp
        · rw [show decide (x.1 ≠ c.1) = true by simp; exact fun h => hx h.symm,
            show decide (c.1 = x.1) = false by simp [hx]]
          simp
      · simp only [broadcast_go, if_neg hex, hc2, if_true, ih]
        apply List.filter_congr
        intro x _
        simp [hc2]

/-- C9: per-recipient failures never abort the fan-out — `broadcast` delivers
the message to exactly the connected, non-excluded players whose socket
accepts it, regardless of failures among the others; every player whose send
fails during the fan-out ends up silently removed from the connection map;
and a failed `send_to` likewise returns normally (no exception — the model
is a total function), delivering nothing and removing only that player. -/
theorem hub_best_effort_spec :
    (∀ (conns : List (String × Bool)) (exclude : Option String),
      (broadcast conns exclude).2 =
        (conns.filter (fun c => c.2 && decide (some c.1 ≠ exclude))).map Prod.fst) ∧
    (∀ (conns : List (String × Bool)) (exclude : Option String) (pid : String),
      (pid, false) ∈ conns → some pid ≠ exclude →
      ∀ c ∈ (broadcast conns exclude).1, c.1 ≠ pid) ∧
    (∀ (conns : List (String × Bool)) (pid : String),
      conns_lookup conns pid = some false →
      send_to conns pid = (disconnect conns pid, []) ∧
      ∀ c ∈ disconnect conns pid, c.1 ≠ pid) := by
  refine ⟨?_, ?_, ?_⟩
  · intro conns exclude
    simpa using broadcast_go_snd conns conns [] exclude
  · intro conns exclude pid hmem hex c hc hceq
    rw [broadcast, broadcast_go_fst] at hc
    rcases List.mem_filter.mp hc with ⟨_, hpred⟩
    simp only [Bool.not_eq_true', List.any_eq_false] at hpred
    have := hpred (pid, false) hmem
    simp [hex, hceq] at this
  · intro conns pid hlook
    refine ⟨?_, ?_⟩
    · rw [send_to, hlook]
      rfl
    · intro c hc
      rcases List.mem_filter.mp hc with ⟨_, hpred⟩
      simpa using hpred

-- ── Dispatcher theorems (C10, C6) ────────────────────────────────────────────

/-- C9 witness helper facts are separate; this section covers the dispatcher.
C10: a `night_action` from an alive healer or bodyguard naming their own
character — in the night phase, with the usual validations otherwise
passing — is rejected with `INVALID_SELF_TARGET` sent to the sender only,
and no night action is stored (the state is unchanged apart from the one
error message). -/
theorem night_action_self_target_spec (st : SysState) (pid raw : String) (fp : Nat)
    (player : PlayerState)
    (hph : st.store.game.phase = Phase.night)
    (hlook : id_lookup st.store.players pid = some player)
    (halive : player.alive = true)
    (hrole : player.role = some Role.healer ∨ player.role = some Role.bodyguard)
    (htarget : py_strip raw = player.character_name)
    (hne : player.character_name ≠ "") :
    on_night_action st pid raw fp =
      emit st (.sendTo pid "error" "INVALID_SELF_TARGET") := by
  have hmem := (id_lookup_mem hlook).1
  have halive2 : player ∈ get_alive_players st.store.players :=
    List.mem_filter.mpr ⟨hmem, by simp [halive]⟩
  have h_in : player.character_name ∈ alive_chars_of st.store := by
    unfold alive_chars_of
    exact List.mem_append_left _ (List.mem_map_of_mem _ halive2)
  have hnr : night_role player.role = true := by
    rcases hrole with h | h <;> simp [night_role, h]
  unfold on_night_action
  rw [if_neg (by simp [hph]), hlook]
  dsimp only
  rw [if_neg (by simp [halive]), if_neg (by simp [hnr]), htarget,
    if_neg hne, if_neg (not_not_intro h_in), if_pos ⟨hrole, rfl⟩]

/-- A night store in which the healer `p1` has already submitted a night
action this round (`Bob`) and the seer `p2` has not yet acted. -/
def c6_store : Store :=
  { game := { status := .in_progress, phase := .night, round := 1,
              character_cast := ["Alice", "Bob", "Carol", "Morrigan"],
              ai_character := some { name := "Morrigan", role := .shapeshifter,
                                     alive := true, voted_for := none,
                                     is_traitor := true } },
    players :=
      [{ id := "p1", name := "P1", character_name := "Alice",
         role := some .healer, alive := true, connected := true, ready := true,
         voted_for := none, night_action := some "Bob" },
       { id := "p2", name := "P2", character_name := "Bob",
         role := some .seer, alive := true, connected := true, ready := true,
         voted_for := none, night_action := none },
       { id := "p3", name := "P3", character_name := "Carol",
         role := some .villager, alive := true, connected := true, ready := true,
         voted_for := none, night_action := none }],
    events := [] }

def c6_st : SysState :=
  { store := c6_store, resolving := false, vote_timeout_armed := false, sent := [] }

/-- C6, counterexample: the healer `p1` already holds a stored night action
(`Bob`) for the current round, yet a second `night_action` submission is
*accepted* — answered with `night_action_received`, not an error — and it
overwrites the stored first submission with the new target `Carol`.  This
contradicts the claim that a second night-action submission in the same
round is rejected and leaves the first unchanged. -/
theorem second_night_action_counterexample :
    (id_lookup c6_st.store.players "p1").map (fun p => p.night_action) =
      some (some "Bob") ∧
    (on_night_action c6_st "p1" "Carol" 0).sent =
      [OutMsg.sendTo "p1" "night_action_received" ""] ∧
    (id_lookup (on_night_action c6_st "p1" "Carol" 0).store.players "p1").map
      (fun p => p.night_action) = some (some "Carol") := by decide

/-- C6 (amended): a second *vote* by the same participant in the same round
is rejected with `VOTE_ALREADY_CAST` and leaves all stored state unchanged;
but a second *night action* is not rejected — the dispatcher has no
already-submitted guard for night actions, so a valid resubmission is
accepted and overwrites the stored first target (shown here for the case
where other night-role players are still pending, so no resolution fires). -/
theorem second_submission_spec (st : SysState) (pid raw : String)
    (pick fp : Nat) (player : PlayerState)
    (hlook : id_lookup st.store.players pid = some player)
    (halive : player.alive = true)
    (htne : py_strip raw ≠ "")
    (hmem : py_strip raw ∈ alive_chars_of st.store) :
    (st.store.game.phase = Phase.day_vote → player.voted_for.isSome →
      on_vote st pid raw pick = emit st (.sendTo pid "error" "VOTE_ALREADY_CAST")) ∧
    (st.store.game.phase = Phase.night →
      night_role player.role = true →
      ¬ ((player.role = some Role.healer ∨ player.role = some Role.bodyguard) ∧
          py_strip raw = player.character_name) →
      ((set_night_action st.store pid (py_strip raw)).players.filter
          (fun p => p.alive && night_role p.role)).all
        (fun p => truthy p.night_action) = false →
      on_night_action st pid raw fp =
        emit { st with store := set_night_action st.store pid (py_strip raw) }
          (.sendTo pid "night_action_received" "")) := by
  constructor
  · intro hph hvoted
    unfold on_vote
    rw [if_neg (by simp [hph]), hlook]
    dsimp only
    rw [if_neg (by simp [halive]), if_neg htne,
      if_neg (not_not_intro hmem), if_pos hvoted]
  · intro hph hnr hnotself hnotall
    unfold on_night_action
    rw [if_neg (by simp [hph]), hlook]
    dsimp only
    rw [if_neg (by simp [halive]), if_neg (by simp [hnr]), if_neg htne,
      if_neg (not_not_intro hmem), if_neg hnotself]
    dsimp only [emit]
    rw [if_neg (by simp [hnotall])]

-- ── Concrete witnesses ───────────────────────────────────────────────────────

def mk_player (i c : String) (r : Option Role) (al : Bool)
    (v na : Option String) : PlayerState :=
  { id := i, name := i, character_name := c, role := r, alive := al,
    connected := true, ready := true, voted_for := v, night_action := na }

-- C2 witness inputs: a five-character night with a logged kill intent.

def c2_night_target (t : String) : GameEvent :=
  { type := "night_target", round := 1, phase := Phase.night,
    actor := some "Morrigan", target := some t, data := {},
    visible_in_game := false }

def c2_game : GameState :=
  { status := .in_progress, phase := .night, round := 1,
    character_cast := ["Alice", "Bob", "Carol", "Dave", "Eve", "Morrigan"],
    ai_character := some { name := "Morrigan", role := .shapeshifter,
                           alive := true, voted_for := none, is_traitor := true } }

def c2_dave : PlayerState := mk_player "p4" "Dave" (some .hunter) true none none

/-- Healer shields the kill target. -/
def c2_heal : Store :=
  { game := c2_game,
    players := [mk_player "p1" "Alice" (some .seer) true none none,
                mk_player "p2" "Bob" (some .healer) true none (some "Carol"),
                mk_player "p3" "Carol" (some .villager) true none none,
                c2_dave],
    events := [c2_night_target "Carol"] }

/-- Bodyguard (Eve), not the healer, shields the kill target. -/
def c2_bg : Store :=
  { game := c2_game,
    players := [mk_player "p1" "Alice" (some .seer) true none none,
                mk_player "p2" "Bob" (some .healer) true none (some "Alice"),
                mk_player "p3" "Carol" (some .villager) true none none,
                c2_dave,
                mk_player "p5" "Eve" (some .bodyguard) true none (some "Carol")],
    events := [c2_night_target "Carol"] }

/-- No protection on the kill target, who is the Hunter. -/
def c2_hit : Store :=
  { game := c2_game,
    players := [mk_player "p1" "Alice" (some .seer) true none none,
                mk_player "p2" "Bob" (some .healer) true none (some "Alice"),
                mk_player "p3" "Carol" (some .villager) true none none,
                c2_dave],
    events := [c2_night_target "Dave"] }

/-- Closed witness for C2: the three precedence branches at concrete
snapshots — healer block, bodyguard sacrifice, direct hit on the Hunter. -/
theorem resolve_night_precedence_witness :
    (resolve_night c2_heal 0).1.killed = none ∧
    (resolve_night c2_bg 0).1.bodyguard_sacrifice = true ∧
    (resolve_night c2_hit 0).1.killed = some "Dave" ∧
    (resolve_night c2_hit 0).1.hunter_triggered = true := by
  refine ⟨(resolve_night_precedence c2_heal 0 "Carol" (by decide) (by decide)).1
    (by decide), ?_, ?_, ?_⟩
  · obtain ⟨bgid, bg, _, _, _, hs⟩ :=
      (resolve_night_precedence c2_bg 0 "Carol" (by decide) (by decide)).2.1
        (by decide) (by decide)
    exact hs
  · exact ((resolve_night_precedence c2_hit 0 "Dave" (by decide) (by decide)).2.2
      (by decide) (by decide)).1
  · exact ((resolve_night_precedence c2_hit 0 "Dave" (by decide) (by decide)).2.2
      (by decide) (by decide)).2.mpr ⟨c2_dave, by decide, by decide⟩

-- C3 witness inputs.

/-- Traitor AI eliminated: villager win regardless of round. -/
def c3_a : Store :=
  { game := { status := .in_progress, phase := .elimination, round := 1,
              character_cast := ["Alice", "Bob", "Morrigan"],
              ai_character := some { name := "Morrigan", role := .shapeshifter,
                                     alive := false, voted_for := none,
                                     is_traitor := true } },
    players := [mk_player "p1" "Alice" (some .seer) true none none,
                mk_player "p2" "Bob" (some .villager) true none none],
    events := [] }

/-- One human left at round 3 (floor 3 for a 4-roster): shapeshifter win. -/
def c3_b : Store :=
  { game := { status := .in_progress, phase := .elimination, round := 3,
              character_cast := ["Alice", "Bob", "Carol", "Morrigan"],
              ai_character := some { name := "Morrigan", role := .shapeshifter,
                                     alive := true, voted_for := none,
                                     is_traitor := true } },
    players := [mk_player "p1" "Alice" (some .seer) true none none,
                mk_player "p2" "Bob" (some .villager) false none none,
                mk_player "p3" "Carol" (some .villager) false none none],
    events := [] }

/-- One human left but only round 2 (< floor 3): game continues. -/
def c3_c : Store :=
  { c3_b with game := { c3_b.game with round := 2 } }

/-- Closed witness for C3 at concrete stores: immediate villager win on a
dead traitor AI, deferred shapeshifter win below the floor, and the
only-when facts behind a granted shapeshifter win. -/
theorem check_win_condition_spec_witness :
    check_win_condition c3_a = some villagers_win ∧
    check_win_condition c3_c = none ∧
    ((get_alive_players c3_b.players).length ≤ 1 ∧
      (MINIMUM_ROUNDS c3_b.game.character_cast.length).getD 3 ≤ c3_b.game.round) := by
  refine ⟨?_, ?_, ?_⟩
  · exact (check_win_condition_spec c3_a).1 _ rfl rfl rfl
  · exact (check_win_condition_spec c3_c).2.2 _ rfl rfl (by decide) (by decide)
  · exact (check_win_condition_spec c3_b).2.1 shapeshifter_win (by decide) rfl

-- C4 witness inputs.

def c4_ai : AICharacter :=
  { name := "Morrigan", role := .shapeshifter, alive := true,
    voted_for := some "Carol", is_traitor := true }

/-- A 1-1-1 three-way tie: two player votes plus the mirrored AI vote. -/
def c4_store : Store :=
  { game := { status := .in_progress, phase := .day_vote, round := 1,
              character_cast := ["Alice", "Bob", "Carol", "Morrigan"],
              ai_character := some c4_ai },
    players := [mk_player "p1" "Alice" (some .seer) true (some "Alice") none,
                mk_player "p2" "Bob" (some .villager) true (some "Bob") none,
                mk_player "p3" "Carol" (some .villager) true none none],
    events := [] }

/-- Closed witness for C4 at a concrete tie: the tally sums to all three
counted votes, the AI vote is cleared, and the tie result picks one of the
three leaders listed in `tied`. -/
theorem tally_votes_spec_witness :
    tally_sum (tally_votes c4_store 1).1.tally = 3 ∧
    (tally_votes c4_store 1).2.game.ai_character =
      some { c4_ai with voted_for := none } ∧
    ((tally_votes c4_store 1).1.tied = leaders_of (tally_votes c4_store 1).1.tally ∧
      ∃ el, (tally_votes c4_store 1).1.eliminated = some el ∧
        el ∈ leaders_of (tally_votes c4_store 1).1.tally) := by
  have h := tally_votes_spec c4_store 1
  refine ⟨?_, h.2.1 c4_ai rfl rfl (by decide), h.2.2.2 (by decide)⟩
  · rw [h.1]
    decide

-- C5 / C8 witness inputs.

def c5_game : GameState :=
  { status := .in_progress, phase := .setup, round := 0,
    character_cast := ["Alice", "Bob", "Morrigan"], ai_character := none }

def c5_elim : GameState := { c5_game with phase := Phase.elimination, round := 2 }

def c5_over : GameState := { c5_game with phase := Phase.game_over, round := 3 }

/-- Closed witness for C5 at concrete games: setup start, the round-bumping
step into night, and the two failure modes. -/
theorem advance_phase_spec_witness :
    advance_phase none = .error .notFound ∧
    advance_phase (some c5_game) =
      .ok (Phase.night, { c5_game with phase := Phase.night, round := 1 }) ∧
    advance_phase (some c5_elim) =
      .ok (Phase.night, { c5_elim with phase := Phase.night, round := c5_elim.round + 1 }) ∧
    advance_phase (some c5_over) = .error (.invalidState Phase.game_over) :=
  ⟨advance_phase_spec.1,
   advance_phase_spec.2.1 c5_game rfl,
   advance_phase_spec.2.2.2.2.2.1 c5_elim rfl,
   advance_phase_spec.2.2.2.2.2.2 c5_over rfl⟩

def c8_next : GameState := { c5_game with phase := Phase.night, round := 1 }

/-- Closed witness for C8 at the initial game and its first step. -/
theorem reachable_phase_round_spec_witness :
    (c5_game.phase = Phase.setup ∨ c5_game.phase ∈ PHASE_CYCLE ∨
      c5_game.phase = Phase.game_over) ∧
    (c5_game.round ≤ c8_next.round ∧
      (c8_next.round = c5_game.round + 1 ↔ c8_next.phase = Phase.night) ∧
      (c8_next.phase ≠ Phase.night → c8_next.round = c5_game.round)) := by
  have h := reachable_phase_round_spec c5_game (ReachableGame.init c5_game rfl rfl)
  exact ⟨h.1, h.2 Phase.night c8_next rfl⟩

/-- Closed witness for C9: in a hub with a healthy `a`, a failing `b` and a
healthy `c`, a broadcast still reaches `a` (the failure does not abort the
fan-out), the failing `b` is no longer connected afterwards, and a failed
unicast returns normally, disconnecting only that player. -/
theorem hub_best_effort_spec_witness :
    (broadcast [("a", true), ("b", false), ("c", true)] none).2 = ["a", "c"] ∧
    ("a" : String) ≠ "b" ∧
    send_to [("a", true), ("b", false)] "b" =
      (disconnect [("a", true), ("b", false)] "b", []) := by
  refine ⟨?_, ?_, ?_⟩
  · rw [hub_best_effort_spec.1 [("a", true), ("b", false), ("c", true)] none]
    decide
  · exact hub_best_effort_spec.2.1 [("a", true), ("b", false), ("c", true)] none "b"
      (by decide) (by decide) ("a", true) (by decide)
  · exact (hub_best_effort_spec.2.2 [("a", true), ("b", false)] "b" (by decide)).1

-- C10 witness inputs.

def c10_alice : PlayerState := mk_player "p1" "Alice" (some .healer) true none none

def c10_st : SysState :=
  { store :=
      { game := { status := .in_progress, phase := .night, round := 1,
                  character_cast := ["Alice", "Bob", "Morrigan"],
                  ai_character := some { name := "Morrigan", role := .shapeshifter,
                                         alive := true, voted_for := none,
                                         is_traitor := true } },
        players := [c10_alice,
                    mk_player "p2" "Bob" (some .seer) true none none],
        events := [] },
    resolving := false, vote_timeout_armed := false, sent := [] }

/-- Closed witness for C10: the healer naming their own character gets
exactly the `INVALID_SELF_TARGET` error and nothing is stored. -/
theorem night_action_self_target_spec_witness :
    on_night_action c10_st "p1" "Alice" 0 =
      emit c10_st (.sendTo "p1" "error" "INVALID_SELF_TARGET") :=
  night_action_self_target_spec c10_st "p1" "Alice" 0 c10_alice rfl (by decide)
    rfl (Or.inl rfl) (by decide) (by decide)

-- C6 witness inputs (the night store `c6_st` is defined above).

def c6v_p1 : PlayerState := mk_player "p1" "Alice" (some .villager) true (some "Bob") none

def c6v_st : SysState :=
  { store :=
      { game := { status := .in_progress, phase := .day_vote, round := 1,
                  character_cast := ["Alice", "Bob", "Morrigan"],
                  ai_character := some { name := "Morrigan", role := .shapeshifter,
                                         alive := true, voted_for := none,
                                         is_traitor := true } },
        players := [c6v_p1,
                    mk_player "p2" "Bob" (some .seer) true none none],
        events := [] },
    resolving := false, vote_timeout_armed := true, sent := [] }

def c6_p1 : PlayerState :=
  { id := "p1", name := "P1", character_name := "Alice", role := some .healer,
    alive := true, connected := true, ready := true, voted_for := none,
    night_action := some "Bob" }

/-- Closed witness for the C6 amended theorem: a second vote is rejected
with `VOTE_ALREADY_CAST`, while a second night action is accepted and
overwrites the stored target. -/
theorem second_submission_spec_witness :
    on_vote c6v_st "p1" "Morrigan" 0 =
      emit c6v_st (.sendTo "p1" "error" "VOTE_ALREADY_CAST") ∧
    on_night_action c6_st "p1" "Carol" 0 =
      emit { c6_st with store := set_night_action c6_st.store "p1" (py_strip "Carol") }
        (.sendTo "p1" "night_action_received" "") := by
  constructor
  · exact (second_submission_spec c6v_st "p1" "Morrigan" 0 0 c6v_p1 (by decide) rfl
      (by decide) (by decide)).1 rfl (by decide)
  · exact (second_submission_spec c6_st "p1" "Carol" 0 0 c6_p1 (by decide) rfl
      (by decide) (by decide)).2 rfl (by decide) (by decide) (by decide)

end Fireside
